import Mathlib

/-!
Verification of the Database_editor core: a shallow embedding of the
Query Interpreter (`src/database/querries.py`) and the Schema Manager
(`src/database/models.py`), with theorems checking the specification's
claims.  Python strings are modelled as `List Char` (the statements the
spec covers are single-line ASCII text, per section 4.2 of the spec);
each regular expression of the source is modelled by an explicit
deterministic matcher that reproduces the leftmost / greedy / lazy
behaviour of the original pattern on such inputs.
-/

deriving instance DecidableEq for Except

namespace DbEditor

/-- ASCII decimal digit (regex `\d` on the ASCII inputs in scope). -/
def isDig (c : Char) : Bool := 48 ≤ c.toNat && c.toNat ≤ 57

/-- Regex `\w` word character, ASCII range. -/
def isWordChar (c : Char) : Bool :=
  (65 ≤ c.toNat && c.toNat ≤ 90) || (97 ≤ c.toNat && c.toNat ≤ 122) || isDig c || c.toNat = 95

/-- The whitespace set of Python `str.strip()` and regex `\s` (ASCII). -/
def isWs (c : Char) : Bool :=
  c.toNat = 32 || c.toNat = 9 || c.toNat = 10 || c.toNat = 13 || c.toNat = 11 || c.toNat = 12

/-- Python `str.lower()` on ASCII characters. -/
def lowerChar (c : Char) : Char :=
  if 65 ≤ c.toNat && c.toNat ≤ 90 then Char.ofNat (c.toNat + 32) else c

/-- Python `str.lstrip()`. -/
def pyStripL (l : List Char) : List Char := l.dropWhile isWs

/-- Python `str.strip()`. -/
def pyStrip (l : List Char) : List Char := ((pyStripL l).reverse.dropWhile isWs).reverse

/-- Python `str.strip("'")`: removes every leading and trailing quote. -/
def stripQuotes (l : List Char) : List Char :=
  ((l.dropWhile (fun c => c == '\'')).reverse.dropWhile (fun c => c == '\'')).reverse

/-- Index of the first occurrence of `sep` in `l` (Python `str.find`). -/
def findSub (sep : List Char) : List Char → Option Nat
  | [] => if sep.isEmpty then some 0 else none
  | c :: rest =>
    if sep.isPrefixOf (c :: rest) then some 0
    else (findSub sep rest).map (· + 1)

/-- Fuelled worker for `splitOnSub`. -/
def splitOnSubF (sep : List Char) : Nat → List Char → List (List Char)
  | 0, l => [l]
  | fuel + 1, l =>
    match findSub sep l with
    | none => [l]
    | some i => l.take i :: splitOnSubF sep fuel (l.drop (i + sep.length))

/-- Python `str.split(sep)` for a non-empty separator: non-overlapping,
leftmost-first.  `l.length + 1` units of fuel always suffice since every
step consumes at least one character. -/
def splitOnSub (sep l : List Char) : List (List Char) := splitOnSubF sep (l.length + 1) l

/-- Decimal digit characters of a natural number. -/
def natChars (n : Nat) : List Char := Nat.toDigits 10 n

/-- Numeric value of a run of digit characters. -/
def digitsToNat (ds : List Char) : Nat := ds.foldl (fun n c => n * 10 + (c.toNat - 48)) 0

/-! ## Schema Manager (`src/database/models.py`) -/

/-- The SQLAlchemy column types `map_column_types` can produce:
`Integer`, `Boolean`, `DECIMAL`, `DateTime`, `String` with an optional
length. -/
inductive ColType
  | integer
  | boolean
  | decimal
  | datetime
  | string (len : Option Nat)
deriving DecidableEq, Repr

/-- `VALID_COL_TYPES` from models.py. -/
def VALID_COL_TYPES : List (List Char) :=
  ["int".data, "integer".data, "bool".data, "boolean".data,
   "decimal".data, "money".data, "datetime".data]

/-- `STRING_COL_TYPES` from models.py. -/
def STRING_COL_TYPES : List (List Char) :=
  ["str".data, "varchar".data, "nvarchar".data, "string".data]

/-- `re.search(r'\((\d+)\)', col_type)`, returning the captured number of
the first parenthesised digit run followed by a closing parenthesis. -/
def searchParenLen : List Char → Option Nat
  | [] => none
  | '(' :: rest =>
    (let ds := rest.takeWhile isDig
     if ds.isEmpty then searchParenLen rest
     else
       match rest.drop ds.length with
       | ')' :: _ => some (digitsToNat ds)
       | _ => searchParenLen rest)
  | _ :: rest => searchParenLen rest

/-- `TableFactory.map_column_types` from models.py: lower-cases the
descriptor, tests the integer / boolean / decimal aliases and the exact
word datetime, then `str.startswith(STRING_COL_TYPES)` with the first
`(N)` group anywhere in the descriptor as the length; `None` (here
`none`) otherwise. -/
def map_column_types (colType : List Char) : Option ColType :=
  let ct := colType.map lowerChar
  if ct == "int".data || ct == "integer".data then some .integer
  else if ct == "bool".data || ct == "boolean".data then some .boolean
  else if ct == "decimal".data || ct == "money".data then some .decimal
  else if ct == "datetime".data then some .datetime
  else if STRING_COL_TYPES.any (fun s => s.isPrefixOf ct) then some (.string (searchParenLen ct))
  else none

/-- `re.fullmatch(rf"{string_type}\(\d+\)", col_type)` as a Bool: the
whole input is the alias followed by `(`, one or more digits, `)`. -/
def fullmatchTypeLen (s l : List Char) : Bool :=
  s.isPrefixOf l &&
  (match l.drop s.length with
   | '(' :: rest =>
     (let ds := rest.takeWhile isDig
      !ds.isEmpty && rest.drop ds.length == [')'])
   | _ => false)

/-- `TableFactory.valid_col_type` from models.py: a text alias with a
mandatory `(N)` suffix, or exact (case-sensitive) membership in
`VALID_COL_TYPES`.  Note the source applies no lower-casing here. -/
def valid_col_type (colType : List Char) : Bool :=
  STRING_COL_TYPES.any (fun s => fullmatchTypeLen s colType) ||
  VALID_COL_TYPES.any (fun v => v == colType)

/-- `TableModel` from table_model.py: column name, type descriptor,
nullable flag, as built by the presentation layer. -/
structure TableModel where
  col_name : List Char
  col_type : List Char
  nullable : Bool
deriving DecidableEq, Repr

/-! ## Value Coercer (`datetime` / `Decimal` / `int` literals) -/

/-- The fields of a Python `datetime` parsed with the fixed pattern
`%Y-%m-%d %H:%M:%S`. -/
structure PyDateTime where
  year : Nat
  month : Nat
  day : Nat
  hour : Nat
  minute : Nat
  second : Nat
deriving DecidableEq, Repr

/-- Two leading digit characters and the rest. -/
def parse2 (l : List Char) : Option (Nat × List Char) :=
  match l with
  | a :: b :: r => if isDig a && isDig b then some (digitsToNat [a, b], r) else none
  | _ => none

/-- `datetime.strptime(s, "%Y-%m-%d %H:%M:%S")` (zero-padded canonical
form of the pattern, with field range checks). -/
def pyParseDT (l : List Char) : Option PyDateTime :=
  match l with
  | y1 :: y2 :: y3 :: y4 :: '-' :: r =>
    if [y1, y2, y3, y4].all isDig then
      match parse2 r with
      | some (mo, '-' :: r2) =>
        match parse2 r2 with
        | some (d, ' ' :: r3) =>
          match parse2 r3 with
          | some (h, ':' :: r4) =>
            match parse2 r4 with
            | some (mi, ':' :: r5) =>
              match parse2 r5 with
              | some (s, []) =>
                if 1 ≤ mo && mo ≤ 12 && 1 ≤ d && d ≤ 31 && h ≤ 23 && mi ≤ 59 && s ≤ 59 then
                  some ⟨digitsToNat [y1, y2, y3, y4], mo, d, h, mi, s⟩
                else none
              | _ => none
            | _ => none
          | _ => none
        | _ => none
      | _ => none
    else none
  | _ => none

/-- Zero-padded decimal digits of width `w`. -/
def padNat (w n : Nat) : List Char :=
  List.replicate (w - (natChars n).length) '0' ++ natChars n

/-- `datetime.strftime('%Y-%m-%d %H:%M:%S')`. -/
def fmtDT (d : PyDateTime) : List Char :=
  padNat 4 d.year ++ "-".data ++ padNat 2 d.month ++ "-".data ++ padNat 2 d.day ++ " ".data ++
  padNat 2 d.hour ++ ":".data ++ padNat 2 d.minute ++ ":".data ++ padNat 2 d.second

/-- Python `int(s)` on a decimal literal: surrounding whitespace, an
optional sign, then one or more digits; `none` models the raised
ValueError. -/
def pyParseInt (l : List Char) : Option Int :=
  match pyStrip l with
  | '-' :: ds => if !ds.isEmpty && ds.all isDig then some (-(digitsToNat ds : Int)) else none
  | '+' :: ds => if !ds.isEmpty && ds.all isDig then some ((digitsToNat ds : Int)) else none
  | ds => if !ds.isEmpty && ds.all isDig then some ((digitsToNat ds : Int)) else none

/-- `decimal.Decimal(s)` on plain literals (optional sign, integer part,
optional fraction): mantissa and scale, so the numeric value is
mantissa / 10 ^ scale.  `none` models the raised InvalidOperation. -/
def pyParseDec (l : List Char) : Option (Int × Nat) :=
  let t := pyStrip l
  let su : Int × List Char :=
    match t with
    | '-' :: r => (-1, r)
    | '+' :: r => (1, r)
    | r => (1, r)
  let ip := su.2.takeWhile isDig
  match su.2.drop ip.length with
  | [] => if ip.isEmpty then none else some (su.1 * (digitsToNat ip : Int), 0)
  | '.' :: fp =>
    if fp.all isDig && (!ip.isEmpty || !fp.isEmpty) then
      some (su.1 * (digitsToNat (ip ++ fp) : Int), fp.length)
    else none
  | _ => none

/-! ## Storage Engine model

The Storage Engine is an external collaborator (spec section 2 and 6:
persistent table store, catalog reflection, transactional row
operations).  It is modelled here as an in-memory list of tables; every
interaction the Query Interpreter has with it is also recorded as a
`StorageCall` so that theorems can speak about which engine calls a
statement performs. -/

/-- A stored scalar: the Python runtime values that can live in a row
(`None`, `int`, `bool`, `str`, `Decimal` as mantissa/scale, `float` as
produced by `_format_row` from a Decimal, `datetime`). -/
inductive Value
  | vNull
  | vInt (n : Int)
  | vBool (b : Bool)
  | vStr (s : List Char)
  | vDec (mant : Int) (scale : Nat)
  | vFloat (q : Rat)
  | vDT (d : PyDateTime)
deriving DecidableEq, Repr

/-- One reflected column: name, storage type, the implicit primary key
flag (column literally named "id"), nullable flag. -/
structure Col where
  name : List Char
  ty : ColType
  primaryKey : Bool
  nullable : Bool
deriving DecidableEq, Repr

/-- A row, keyed by column name. -/
abbrev Row := List (List Char × Value)

/-- One table of the store: name, columns in declared order, rows in
insertion order. -/
structure TableRec where
  tname : List Char
  cols : List Col
  rows : List Row
deriving DecidableEq, Repr

abbrev Db := List TableRec

/-- Comparison operators of the condition grammar. -/
inductive CmpOp
  | eq | ne | lt | le | gt | ge
deriving DecidableEq, Repr

/-- One parsed WHERE comparison: column name, operator, raw text
operand (the source never coerces it). -/
structure Cond where
  col : List Char
  op : CmpOp
  value : List Char
deriving DecidableEq, Repr

/-- The calls the Query Interpreter makes against the Storage Engine:
catalog reflection of one table, and the row operations. -/
inductive StorageCall
  | reflect (table : List Char)
  | insert (table : List Char) (data : Row)
  | update (table : List Char) (data : Row) (conds : List Cond)
  | delete (table : List Char) (conds : List Cond)
  | query (table : List Char) (conds : List Cond)
deriving DecidableEq, Repr

/-- `Table(table_name, metadata, autoload_with=engine)`: catalog lookup
of one table. -/
def reflectTable (db : Db) (t : List Char) : Option TableRec :=
  db.find? (fun r => r.tname == t)

/-- `getattr(table.c, col)` viewed as a lookup. -/
def findCol (tbl : TableRec) (c : List Char) : Option Col :=
  tbl.cols.find? (fun col => col.name == c)

def hasColumn (tbl : TableRec) (c : List Char) : Bool := (findCol tbl c).isSome

def lookupRow (r : Row) (c : List Char) : Option Value :=
  (r.find? (fun p => p.1 == c)).map (fun p => p.2)

/-- Assign a column of a row (overwriting in place, appending if new). -/
def setRowCol (r : Row) (c : List Char) (v : Value) : Row :=
  if r.any (fun p => p.1 == c) then r.map (fun p => if p.1 == c then (p.1, v) else p)
  else r ++ [(c, v)]

/-- Strict lexicographic order on character lists (by code point). -/
def lexLtChars : List Char → List Char → Bool
  | [], [] => false
  | [], _ :: _ => true
  | _ :: _, [] => false
  | a :: as, b :: bs =>
    if a.toNat < b.toNat then true
    else if a.toNat = b.toNat then lexLtChars as bs
    else false

/-- Dispatch an operator over a strict-less and an equality test. -/
def cmpWith (lt eq : Bool) : CmpOp → Bool
  | .eq => eq
  | .ne => !eq
  | .lt => lt
  | .le => lt || eq
  | .gt => !lt && !eq
  | .ge => !lt

/-- Modelled from the spec: the external Storage Engine's evaluation of
one comparison between a stored value and the raw text operand of a
Condition (spec section 6, "row query/insert/update/delete ... with an
AND-combined predicate"; the end-to-end property of section 8 requires
`WHERE id = 1` to match an integer column, so numeric columns compare
the operand numerically, text compares lexicographically, and a NULL or
an operand that does not parse matches nothing). -/
def compareValue : Value → CmpOp → List Char → Bool
  | .vInt n, op, raw =>
    (match pyParseInt raw with
     | some m => cmpWith (decide (n < m)) (decide (n = m)) op
     | none => false)
  | .vBool b, op, raw =>
    (match pyParseInt raw with
     | some m => cmpWith (decide (((if b then 1 else 0) : Int) < m))
                         (decide (((if b then 1 else 0) : Int) = m)) op
     | none => false)
  | .vStr s, op, raw => cmpWith (lexLtChars s raw) (s == raw) op
  | .vDec m k, op, raw =>
    (match pyParseDec raw with
     | some (m2, k2) =>
       cmpWith (decide ((m : Rat) / 10 ^ k < (m2 : Rat) / 10 ^ k2))
               (decide ((m : Rat) / 10 ^ k = (m2 : Rat) / 10 ^ k2)) op
     | none => false)
  | .vFloat q, op, raw =>
    (match pyParseDec raw with
     | some (m2, k2) =>
       cmpWith (decide (q < (m2 : Rat) / 10 ^ k2)) (decide (q = (m2 : Rat) / 10 ^ k2)) op
     | none => false)
  | .vDT d, op, raw => cmpWith (lexLtChars (fmtDT d) raw) (fmtDT d == raw) op
  | .vNull, _, _ => false

/-- One condition against one row. -/
def evalCond (r : Row) (c : Cond) : Bool :=
  match lookupRow r c.col with
  | some v => compareValue v c.op c.value
  | none => false

/-- The AND-combined predicate `and_(*filters)`: an empty list is the
empty conjunction, true of every row. -/
def rowMatchesAll (r : Row) (conds : List Cond) : Bool := conds.all (evalCond r)

/-- Modelled from the spec: committed row insertion (section 6, atomic
commit per mutating statement). -/
def insertRowDb (db : Db) (t : List Char) (data : Row) : Db :=
  db.map (fun r => if r.tname == t then { r with rows := r.rows ++ [data] } else r)

/-- Modelled from the spec: committed deletion of the rows matching the
AND-combined predicate. -/
def deleteRowsDb (db : Db) (t : List Char) (conds : List Cond) : Db :=
  db.map (fun r =>
    if r.tname == t then { r with rows := r.rows.filter (fun row => !rowMatchesAll row conds) }
    else r)

/-- Modelled from the spec: committed update of the rows matching the
AND-combined predicate, applying the assignment pairs as sent by the
client layer (the source sends the raw strings). -/
def updateRowsDb (db : Db) (t : List Char) (conds : List Cond)
    (data : List (List Char × List Char)) : Db :=
  db.map (fun r =>
    if r.tname == t then
      { r with rows := r.rows.map (fun row =>
          if rowMatchesAll row conds then
            data.foldl (fun acc p => setRowCol acc p.1 (.vStr p.2)) row
          else row) }
    else r)

/-- `TableFactory.create_table_class` from models.py: one column per
`TableModel`, type via `map_column_types`, primary key iff the column is
literally named "id", nullable per spec.  Modelled from the spec for the
failure modes, which the source delegates to the external Storage
Engine's `create_all` (outside src/): an unrecognized descriptor fails
with UnsupportedType and a table-name collision with SchemaConflict
(spec section 4.1). -/
def create_table (tableName : List Char) (columns : List TableModel) (db : Db) :
    Except (List Char) Db :=
  if db.any (fun r => r.tname == tableName) then .error "SchemaConflict".data
  else
    match columns.foldlM
        (fun acc m =>
          match map_column_types m.col_type with
          | some ty =>
            Except.ok (acc ++ [Col.mk m.col_name ty (m.col_name == "id".data) m.nullable])
          | none => .error ("UnsupportedType: ".data ++ m.col_type)) ([] : List Col) with
    | .error e => .error e
    | .ok cols => .ok (db ++ [⟨tableName, cols, []⟩])

/-! ## Query Interpreter (`src/database/querries.py`) -/

/-- `_format_row`'s per-value conversion: datetime to its fixed-format
text, Decimal to a floating-point number (exact here, since no claim
exercises rounding), everything else unchanged. -/
def formatValue : Value → Value
  | .vDT d => .vStr (fmtDT d)
  | .vDec m k => .vFloat ((m : Rat) / 10 ^ k)
  | v => v

/-- `QueryExecutor._format_row`: zips the reflected column names with
the row values. -/
def format_row (tbl : TableRec) (row : Row) : Row :=
  tbl.cols.map (fun col => (col.name, formatValue ((lookupRow row col.name).getD .vNull)))

/-- The per-column coercion inside `_map_columns_to_values`, keyed on
`column.type.python_type`: int parse for Integer, Decimal parse for
DECIMAL, `strptime` for DateTime; a Boolean or String column matches no
`isinstance` branch, so the value stays the raw string.  The `float`
branch of the source is unreachable for tables this app creates (no
descriptor maps to a Float column).  An `.error` models the raised
exception. -/
def coerceValue (ty : ColType) (s : List Char) : Except (List Char) Value :=
  match ty with
  | .integer =>
    (match pyParseInt s with
     | some n => .ok (.vInt n)
     | none => .error ("ValueError: invalid literal for int: ".data ++ s))
  | .decimal =>
    (match pyParseDec s with
     | some (m, k) => .ok (.vDec m k)
     | none => .error "InvalidOperation".data)
  | .datetime =>
    (match pyParseDT s with
     | some d => .ok (.vDT d)
     | none => .error ("ValueError: time data does not match format: ".data ++ s))
  | .boolean => .ok (.vStr s)
  | .string _ => .ok (.vStr s)

/-- Python dict assignment `d[k] = v`: overwrite in place, append if
new. -/
def dictInsert {α : Type} (d : List (List Char × α)) (k : List Char) (v : α) :
    List (List Char × α) :=
  if d.any (fun p => p.1 == k) then d.map (fun p => if p.1 == k then (p.1, v) else p)
  else d ++ [(k, v)]

/-- `QueryExecutor._map_columns_to_values`: zips columns with values,
looks each column up on the reflected table (`getattr` raises
AttributeError when absent, modelled as `.error`), and coerces the
value by the column's storage type. -/
def map_columns_to_values (columns values : List (List Char)) (tbl : TableRec) :
    Except (List Char) Row :=
  (columns.zip values).foldlM
    (fun data cv =>
      match findCol tbl cv.1 with
      | none => .error ("AttributeError: ".data ++ cv.1)
      | some col =>
        match coerceValue col.ty cv.2 with
        | .error e => .error e
        | .ok v => .ok (dictInsert data cv.1 v))
    []

/-! ### Statement matchers (the regular expressions of querries.py) -/

/-- A literal (already lower-case, since the statement was lowered). -/
def expectLit (s : String) (l : List Char) : Option (List Char) :=
  if s.data.isPrefixOf l then some (l.drop s.data.length) else none

/-- `\s+` (at least one whitespace character, consumed greedily). -/
def expectWs1 : List Char → Option (List Char)
  | c :: rest => if isWs c then some (rest.dropWhile isWs) else none
  | [] => none

/-- `(\w+)` (greedy; the following pattern element can never match a
word character in the places this is used, so no backtracking). -/
def expectWord (l : List Char) : Option (List Char × List Char) :=
  let w := l.takeWhile isWordChar
  if w.isEmpty then none else some (w, l.drop w.length)

def expectChar (c : Char) : List Char → Option (List Char)
  | x :: r => if x == c then some r else none
  | [] => none

/-- `([^)]+)` (greedy up to the first closing parenthesis). -/
def expectNotParen (l : List Char) : Option (List Char × List Char) :=
  let w := l.takeWhile (fun c => !(c == ')'))
  if w.isEmpty then none else some (w, l.drop w.length)

/-- `re.match(r"insert\s+into\s+(\w+)\s*\(([^)]+)\)\s*values\s*\(([^)]+)\)", query)`:
table name, column list text, value list text. -/
def matchInsertWithCols (q : List Char) : Option (List Char × List Char × List Char) := do
  let r ← expectLit "insert" q
  let r ← expectWs1 r
  let r ← expectLit "into" r
  let r ← expectWs1 r
  let (t, r) ← expectWord r
  let r := r.dropWhile isWs
  let r ← expectChar '(' r
  let (colsStr, r) ← expectNotParen r
  let r ← expectChar ')' r
  let r := r.dropWhile isWs
  let r ← expectLit "values" r
  let r := r.dropWhile isWs
  let r ← expectChar '(' r
  let (valsStr, r) ← expectNotParen r
  let _ ← expectChar ')' r
  pure (t, colsStr, valsStr)

/-- Backtracking worker for `(\w+)\s*values`: try the table-name
candidates from the longest (greedy) down; the `\s*` can only be
nonempty when the whole word run is consumed by `(\w+)`. -/
def matchTVGo (w rest : List Char) : Nat → Option (List Char × List Char)
  | 0 => none
  | k + 1 =>
    if k + 1 = w.length then
      (let r := rest.dropWhile isWs
       if "values".data.isPrefixOf r then some (w, r.drop 6) else matchTVGo w rest k)
    else
      (let tail := w.drop (k + 1) ++ rest
       if "values".data.isPrefixOf tail then some (w.take (k + 1), tail.drop 6)
       else matchTVGo w rest k)

/-- `(\w+)\s*values` with the regex engine's greedy backtracking. -/
def matchTableValues (l : List Char) : Option (List Char × List Char) :=
  let w := l.takeWhile isWordChar
  if w.isEmpty then none else matchTVGo w (l.drop w.length) w.length

/-- `re.match(r"insert\s+into\s+(\w+)\s*values\s*\(([^)]+)\)", query)`. -/
def matchInsertNoCols (q : List Char) : Option (List Char × List Char) := do
  let r ← expectLit "insert" q
  let r ← expectWs1 r
  let r ← expectLit "into" r
  let r ← expectWs1 r
  let (t, r) ← matchTableValues r
  let r := r.dropWhile isWs
  let r ← expectChar '(' r
  let (valsStr, r) ← expectNotParen r
  let _ ← expectChar ')' r
  pure (t, valsStr)

/-- A word boundary after a keyword: end of input or a non-word
character. -/
def boundaryAfter : List Char → Bool
  | [] => true
  | c :: _ => !isWordChar c

/-- Worker for `findWhere`, carrying whether the previous character was
a word character (for the `\b` before "where"). -/
def findWhereAux : Bool → List Char → Option (List Char)
  | _, [] => none
  | prevW, c :: rest =>
    if !prevW && "where".data.isPrefixOf (c :: rest) && boundaryAfter ((c :: rest).drop 5) then
      some (pyStrip ((c :: rest).drop 5))
    else findWhereAux (isWordChar c) rest

/-- `re.search(r'\bwhere\b\s*(.*)', query)` followed by `.strip()`, on
the single-line lowered statement: everything after the first
word-bounded "where", stripped. -/
def findWhere (l : List Char) : Option (List Char) := findWhereAux false l

/-- `from\s+(\w+)` anchored at the current position. -/
def matchFromAt (l : List Char) : Option (List Char) := do
  let r ← expectLit "from" l
  let r ← expectWs1 r
  let (t, _) ← expectWord r
  pure t

def findFromAux : Bool → List Char → Option (List Char)
  | _, [] => none
  | prevW, c :: rest =>
    if !prevW then
      match matchFromAt (c :: rest) with
      | some t => some t
      | none => findFromAux (isWordChar c) rest
    else findFromAux (isWordChar c) rest

/-- `re.search(r'\bfrom\s+(\w+)', query)`: the table name after the
first word-bounded "from". -/
def findFromTable (l : List Char) : Option (List Char) := findFromAux false l

/-- Does `\s+where` match here (the end marker of the lazy SET group)?
The `\s+` must reach the first non-whitespace character, which must
start "where". -/
def setEndsHere : List Char → Bool
  | c :: rest => isWs c && "where".data.isPrefixOf ((c :: rest).dropWhile isWs)
  | [] => false

/-- The lazy `(.*?)(\s+WHERE|$)` group: everything up to the earliest
`\s+where` occurrence, or to the end. -/
def takeSetPart : List Char → List Char
  | [] => []
  | c :: rest => if setEndsHere (c :: rest) then [] else c :: takeSetPart rest

/-- `update\s+(\w+)\s+set\s+(.*?)(\s+where|$)` anchored at the current
position (the statement was already lowered). -/
def matchUpdateAt (l : List Char) : Option (List Char × List Char) := do
  let r ← expectLit "update" l
  let r ← expectWs1 r
  let (t, r) ← expectWord r
  let r ← expectWs1 r
  let r ← expectLit "set" r
  let r ← expectWs1 r
  pure (t, takeSetPart r)

def searchUpdateAux : Bool → List Char → Option (List Char × List Char)
  | _, [] => none
  | prevW, c :: rest =>
    if !prevW then
      match matchUpdateAt (c :: rest) with
      | some x => some x
      | none => searchUpdateAux (isWordChar c) rest
    else searchUpdateAux (isWordChar c) rest

/-- `re.search(r'\bUPDATE\s+(\w+)\s+SET\s+(.*?)(\s+WHERE|$)', query, re.IGNORECASE)`
on the lowered statement: table name and SET list text. -/
def matchUpdate (l : List Char) : Option (List Char × List Char) := searchUpdateAux false l

/-! ### Condition Parser (`_parse_conditions`) -/

/-- The operator alternation `(=|>|<|>=|<=|!=)` tried in source order at
a fixed position: the single characters `=`, `>`, `<` come before `>=`
and `<=`, so a two-character operator starting with `>` or `<` is cut
after its first character; only `!=` is matched whole (no single-`!`
alternative precedes it). -/
def matchOpText : List Char → Option (List Char × List Char)
  | '=' :: r => some ("=".data, r)
  | '>' :: r => some (">".data, r)
  | '<' :: r => some ("<".data, r)
  | '!' :: '=' :: r => some ("!=".data, r)
  | _ => none

/-- `re.match(r'(\w+)\s*(=|>|<|>=|<=|!=)\s*(.+)', cond.strip())`:
identifier, operator text, value text (the greedy `(.+)` takes the rest;
when only whitespace remains the lazy give-back of `\s*` leaves its last
character as the value). -/
def matchCond (seg : List Char) : Option (List Char × List Char × List Char) :=
  match expectWord seg with
  | none => none
  | some (name, r) =>
    match matchOpText (r.dropWhile isWs) with
    | none => none
    | some (opTxt, r2) =>
      if r2.isEmpty then none
      else
        (let v := r2.dropWhile isWs
         some (name, opTxt, if v.isEmpty then r2.reverse.take 1 else v))

/-- The operator-text dispatch of `_parse_conditions` (all six branches
of the source, although `>=` and `<=` are unreachable given
`matchOpText`); a text matching no branch appends no filter. -/
def opToCmp (op : List Char) : Option CmpOp :=
  if op == "=".data then some .eq
  else if op == ">".data then some .gt
  else if op == "<".data then some .lt
  else if op == ">=".data then some .ge
  else if op == "<=".data then some .le
  else if op == "!=".data then some .ne
  else none

/-- Worker of `parse_conditions` over the `" and "`-split segments:
a segment that does not match the pattern is skipped silently; a
matching segment first looks its column up (`getattr` raises
AttributeError for an unknown column) and then appends the filter. -/
def parseCondsGo (tbl : TableRec) : List (List Char) → List Cond →
    Except (List Char) (List Cond)
  | [], acc => .ok acc
  | seg :: rest, acc =>
    match matchCond (pyStrip seg) with
    | none => parseCondsGo tbl rest acc
    | some (col, opTxt, v) =>
      if hasColumn tbl col then
        match opToCmp opTxt with
        | some op => parseCondsGo tbl rest (acc ++ [⟨col, op, v⟩])
        | none => parseCondsGo tbl rest acc
      else .error ("AttributeError: ".data ++ col)

/-- `QueryExecutor._parse_conditions`: split on the literal `" and "`,
parse each segment. -/
def parse_conditions (tbl : TableRec) (condStr : List Char) :
    Except (List Char) (List Cond) :=
  parseCondsGo tbl (splitOnSub " and ".data condStr) []

/-! ### Statement handlers and dispatch -/

/-- The result of `execute_query`: a row list (SELECT), a status
message, Python `None` (unrecognized statement or SELECT without a
parsable FROM), or an uncaught exception. -/
inductive ExecResult
  | rows (rs : List Row)
  | msg (s : List Char)
  | nil
  | exn (s : List Char)
deriving DecidableEq, Repr

/-- Result, resulting store, and the Storage Engine calls made. -/
abbrev ExecOut := ExecResult × Db × List StorageCall

/-- Python truthiness of the extracted condition (`if condition:`):
false for `None` and for the empty string. -/
def condTruthy : Option (List Char) → Bool
  | some c => !c.isEmpty
  | none => false

/-- `QueryExecutor._handle_select`. -/
def handle_select (query : List Char) (db : Db) (condition : Option (List Char)) : ExecOut :=
  match findFromTable query with
  | none => (.nil, db, [])
  | some t =>
    match reflectTable db t with
    | none => (.exn ("NoSuchTableError: ".data ++ t), db, [.reflect t])
    | some tbl =>
      if condTruthy condition then
        match parse_conditions tbl (condition.getD []) with
        | .error e => (.exn e, db, [.reflect t])
        | .ok fs =>
          (.rows ((tbl.rows.filter (fun row => rowMatchesAll row fs)).map (format_row tbl)),
           db, [.reflect t, .query t fs])
      else
        (.rows (tbl.rows.map (format_row tbl)), db, [.reflect t, .query t []])

/-- The tail of `_handle_insert` shared by both forms: reflect the
table (again), check the column/value counts, coerce, insert, commit. -/
def insertStage2 (t : List Char) (columns values : List (List Char)) (db : Db)
    (calls0 : List StorageCall) : ExecOut :=
  match reflectTable db t with
  | none => (.exn ("NoSuchTableError: ".data ++ t), db, calls0 ++ [.reflect t])
  | some tbl =>
    if columns.length ≠ values.length then
      (.msg ("Column count (".data ++ natChars columns.length ++
             ") does not match values count (".data ++ natChars values.length ++ ").".data),
       db, calls0 ++ [.reflect t])
    else
      match map_columns_to_values columns values tbl with
      | .error e => (.exn e, db, calls0 ++ [.reflect t])
      | .ok data =>
        (.msg ("Row inserted into table '".data ++ t ++ "'".data),
         insertRowDb db t data, calls0 ++ [.reflect t, .insert t data])

/-- `QueryExecutor._handle_insert`: the with-columns form is tried
first; the without-columns form reflects the table once more to obtain
the column names. -/
def handle_insert (query : List Char) (db : Db) : ExecOut :=
  match matchInsertWithCols query with
  | some (t, colsStr, valsStr) =>
    insertStage2 t ((splitOnSub ",".data colsStr).map pyStrip)
      ((splitOnSub ",".data valsStr).map (fun v => stripQuotes (pyStrip v))) db []
  | none =>
    match matchInsertNoCols query with
    | some (t, valsStr) =>
      (match reflectTable db t with
       | none => (.exn ("NoSuchTableError: ".data ++ t), db, [.reflect t])
       | some tbl =>
         insertStage2 t (tbl.cols.map (fun c => c.name))
           ((splitOnSub ",".data valsStr).map (fun v => stripQuotes (pyStrip v))) db
           [.reflect t])
    | none => (.msg "Invalid INSERT query format.".data, db, [])

/-- The SET-list dictionary build of `_handle_update`:
`{item.split("=")[0].strip(): item.split("=")[1].strip().strip("'")}`;
an item with no `=` raises IndexError. -/
def buildSetDataGo : List (List Char) → List (List Char × List Char) →
    Except (List Char) (List (List Char × List Char))
  | [], acc => .ok acc
  | item :: rest, acc =>
    (match splitOnSub "=".data item with
     | p0 :: p1 :: _ => buildSetDataGo rest (dictInsert acc (pyStrip p0) (stripQuotes (pyStrip p1)))
     | _ => .error "IndexError: list index out of range".data)

def buildSetData (values : List (List Char)) :
    Except (List Char) (List (List Char × List Char)) :=
  buildSetDataGo values []

/-- `QueryExecutor._handle_update`.  Note the source calls
`_parse_conditions(table, condition)` unconditionally: a statement with
no WHERE clause passes `None`, and `None.split(" and ")` raises
AttributeError before any row is touched.  An assignment to a column the
reflected table lacks raises when the statement is compiled, before the
engine mutates anything. -/
def handle_update (query : List Char) (db : Db) (condition : Option (List Char)) : ExecOut :=
  match matchUpdate query with
  | none => (.msg "Update query not ok.".data, db, [])
  | some (t, setPart) =>
    match reflectTable db t with
    | none => (.exn ("NoSuchTableError: ".data ++ t), db, [.reflect t])
    | some tbl =>
      match buildSetData ((splitOnSub ",".data setPart).map (fun v => stripQuotes (pyStrip v))) with
      | .error e => (.exn e, db, [.reflect t])
      | .ok data =>
        match condition with
        | none =>
          (.exn "AttributeError: NoneType object has no attribute split".data, db, [.reflect t])
        | some c =>
          match parse_conditions tbl c with
          | .error e => (.exn e, db, [.reflect t])
          | .ok fs =>
            if data.all (fun p => hasColumn tbl p.1) then
              (.msg ("Row updated for table '".data ++ t ++ "'".data),
               updateRowsDb db t fs data,
               [.reflect t, .update t (data.map (fun p => (p.1, Value.vStr p.2))) fs])
            else (.exn "CompileError: unconsumed column names".data, db, [.reflect t])

/-- `QueryExecutor._handle_delete`: reflection happens first; a falsy
condition (absent WHERE, or WHERE with empty text) returns the
missing-where message with no mutation. -/
def handle_delete (query : List Char) (db : Db) (condition : Option (List Char)) : ExecOut :=
  match findFromTable query with
  | none => (.msg "Delete query not ok.".data, db, [])
  | some t =>
    match reflectTable db t with
    | none => (.exn ("NoSuchTableError: ".data ++ t), db, [.reflect t])
    | some tbl =>
      if condTruthy condition then
        match parse_conditions tbl (condition.getD []) with
        | .error e => (.exn e, db, [.reflect t])
        | .ok fs =>
          (.msg ("Rows deleted in table ".data ++ t), deleteRowsDb db t fs,
           [.reflect t, .delete t fs])
      else (.msg "Missing where statement!".data, db, [.reflect t])

/-- `user_query.strip().lower()`. -/
def normQuery (userQuery : List Char) : List Char := (pyStrip userQuery).map lowerChar

/-- `QueryExecutor.execute_query`: strips and lower-cases the statement,
extracts the text after the first word-bounded "where", then dispatches
on the leading keyword prefix; a statement starting with none of the
four keywords falls through all branches and returns Python `None`. -/
def execute_query (userQuery : List Char) (db : Db) : ExecOut :=
  let query := normQuery userQuery
  let condition := findWhere query
  if "select".data.isPrefixOf query then handle_select query db condition
  else if "insert".data.isPrefixOf query then handle_insert query db
  else if "update".data.isPrefixOf query then handle_update query db condition
  else if "delete".data.isPrefixOf query then handle_delete query db condition
  else (.nil, db, [])

/-! ## Helper lemmas -/

/-- `isPrefixOf` as an existential decomposition. -/
theorem isPrefixOf_iff_append (s : List Char) : ∀ l, s.isPrefixOf l = true ↔ ∃ t, s ++ t = l := by
  induction s with
  | nil =>
    intro l
    simp [List.isPrefixOf]
  | cons a as ih =>
    intro l
    cases l with
    | nil => simp [List.isPrefixOf]
    | cons b bs =>
      simp only [List.isPrefixOf, Bool.and_eq_true, beq_iff_eq, ih]
      constructor
      · rintro ⟨rfl, t, rfl⟩
        exact ⟨t, rfl⟩
      · rintro ⟨t, ht⟩
        injection ht with h1 h2
        exact ⟨h1, t, h2⟩

theorem isPrefixOf_append_self (s t : List Char) : s.isPrefixOf (s ++ t) = true :=
  (isPrefixOf_iff_append s (s ++ t)).mpr ⟨t, rfl⟩

/-- A prefix starting with a different character rules the other prefix
out. -/
theorem isPrefixOf_false_of_head_ne (a b : Char) (pa pb l : List Char) (hab : ¬ a = b)
    (h : (a :: pa).isPrefixOf l = true) : (b :: pb).isPrefixOf l = false := by
  cases l with
  | nil => simp [List.isPrefixOf] at h
  | cons c cs =>
    simp only [List.isPrefixOf, Bool.and_eq_true, beq_iff_eq] at h
    simp only [List.isPrefixOf, Bool.and_eq_false_iff, beq_eq_false_iff_ne, ne_eq]
    exact Or.inl (fun hbc => hab (hbc ▸ h.1.symm ▸ rfl))

/-! ## Claim C1 -/

def c1Db : Db :=
  [⟨"t".data, [⟨"id".data, .integer, true, false⟩, ⟨"x".data, .integer, false, false⟩],
    [[("id".data, .vInt 1), ("x".data, .vInt 10)],
     [("id".data, .vInt 2), ("x".data, .vInt 20)]]⟩]

/-- Claim C1: the claim says `UPDATE t SET x=1` with no WHERE clause
applies the assignment to every row and returns the update confirmation.
The code instead passes the `None` condition straight into
`_parse_conditions`, where `None.split(" and ")` raises AttributeError:
the statement returns an exception, mutates nothing, and the only
Storage Engine call is the table reflection. -/
theorem update_without_where_raises :
    execute_query "UPDATE t SET x=1".data c1Db
      = (.exn "AttributeError: NoneType object has no attribute split".data, c1Db,
         [.reflect "t".data]) := by decide

/-! ## Claim C2 -/

def c2Tbl : TableRec :=
  ⟨"t".data, [⟨"age".data, .integer, false, true⟩, ⟨"active".data, .boolean, false, true⟩], []⟩

/-- Claim C2: the claim says parsing `age >= 18 and active = true`
yields exactly (age, >=, "18") and (active, =, "true").  The operator
alternation of the source tries `>` before `>=`, so the first segment is
tokenized as (age, >, "= 18") instead; the claimed condition list is not
produced. -/
theorem ge_mistokenized :
    parse_conditions c2Tbl "age >= 18 and active = true".data
        = .ok [⟨"age".data, .gt, "= 18".data⟩, ⟨"active".data, .eq, "true".data⟩]
    ∧ parse_conditions c2Tbl "age >= 18 and active = true".data
        ≠ .ok [⟨"age".data, .ge, "18".data⟩, ⟨"active".data, .eq, "true".data⟩] := by decide

/-! ## Claim C4 -/

def c4Cols : List Col :=
  [⟨"id".data, .integer, true, false⟩, ⟨"name".data, .string (some 50), false, false⟩]

def c4Db : Db := [⟨"people".data, c4Cols, []⟩]

def c4Row : Row := [("id".data, .vInt 1), ("name".data, .vStr "ann".data)]

def c4Db2 : Db := [⟨"people".data, c4Cols, [c4Row]⟩]

/-- Claim C4, counterexample: the round trip does succeed, but the
returned text literal is "ann", not "Ann" — `execute_query` lower-cases
the whole statement before parsing, so the input literal's character
case is not preserved, contradicting the claim's "including its
character case". -/
theorem roundtrip_lowercases_literal_cx :
    create_table "people".data
        [⟨"id".data, "int".data, false⟩, ⟨"name".data, "string(50)".data, false⟩] []
      = .ok c4Db
    ∧ execute_query "INSERT INTO people (id, name) VALUES (1, 'Ann')".data c4Db
      = (.msg "Row inserted into table 'people'".data, c4Db2,
         [.reflect "people".data, .insert "people".data c4Row])
    ∧ execute_query "SELECT * FROM people WHERE id = 1".data c4Db2
      = (.rows [c4Row], c4Db2,
         [.reflect "people".data, .query "people".data [⟨"id".data, .eq, "1".data⟩]])
    ∧ lookupRow c4Row "name".data ≠ some (.vStr "Ann".data) := by decide

/-- Claim C4 as amended: after creating the people table, the INSERT
succeeds and the SELECT returns exactly the single row
{id: 1, name: "ann"} — the coerced inputs of the lower-cased statement,
the text literal included. -/
theorem roundtrip_returns_lowercased_row :
    create_table "people".data
        [⟨"id".data, "int".data, false⟩, ⟨"name".data, "string(50)".data, false⟩] []
      = .ok c4Db
    ∧ execute_query "INSERT INTO people (id, name) VALUES (1, 'Ann')".data c4Db
      = (.msg "Row inserted into table 'people'".data, c4Db2,
         [.reflect "people".data, .insert "people".data c4Row])
    ∧ execute_query "SELECT * FROM people WHERE id = 1".data c4Db2
      = (.rows [[("id".data, .vInt 1), ("name".data, .vStr "ann".data)]], c4Db2,
         [.reflect "people".data, .query "people".data [⟨"id".data, .eq, "1".data⟩]]) := by
  decide

/-! ## Claim C5 -/

def c5Cols : List Col :=
  [⟨"id".data, .integer, true, false⟩, ⟨"x".data, .integer, false, false⟩]

/-- Claim C5, counterexample: for `update t set x = 5 where id = 1` the
row update sent to the Storage Engine carries the raw string "5", while
the INSERT coercion (`_map_columns_to_values`) would produce the integer
5 for the same column — the claim that UPDATE values are coerced like
INSERT values before being sent is false. -/
theorem update_values_not_coerced_cx :
    (execute_query "update t set x = 5 where id = 1".data [⟨"t".data, c5Cols, []⟩]).2.2
      = [.reflect "t".data,
         .update "t".data [("x".data, Value.vStr "5".data)] [⟨"id".data, .eq, "1".data⟩]]
    ∧ map_columns_to_values ["x".data] ["5".data] ⟨"t".data, c5Cols, []⟩
        = .ok [("x".data, Value.vInt 5)]
    ∧ Value.vStr "5".data ≠ Value.vInt 5 := by decide

/-- Claim C5 as amended: for every well-formed UPDATE statement —
dispatched as UPDATE, whose UPDATE...SET shape matches, whose table
reflects, whose SET list splits into assignment pairs, and whose WHERE
condition parses against the table's columns — the row update sent to
the Storage Engine carries each SET value as the raw quote-stripped
string (`Value.vStr` of the split text): no coercion by the column's
declared storage type happens on the UPDATE path; only `_handle_insert`
runs values through `_map_columns_to_values`. -/
theorem update_values_sent_raw (q : List Char) (db : Db) (t setPart : List Char)
    (tbl : TableRec) (data : List (List Char × List Char)) (c : List Char) (fs : List Cond)
    (hupd : "update".data.isPrefixOf (normQuery q) = true)
    (hm : matchUpdate (normQuery q) = some (t, setPart))
    (hr : reflectTable db t = some tbl)
    (hd : buildSetData ((splitOnSub ",".data setPart).map (fun v => stripQuotes (pyStrip v)))
        = .ok data)
    (hw : findWhere (normQuery q) = some c)
    (hp : parse_conditions tbl c = .ok fs)
    (hcols : data.all (fun p => hasColumn tbl p.1) = true) :
    execute_query q db
      = (.msg ("Row updated for table '".data ++ t ++ "'".data),
         updateRowsDb db t fs data,
         [.reflect t, .update t (data.map (fun p => (p.1, Value.vStr p.2))) fs]) := by
  have hsel : "select".data.isPrefixOf (normQuery q) = false :=
    isPrefixOf_false_of_head_ne 'u' 's' "pdate".data "elect".data _ (by decide) hupd
  have hins : "insert".data.isPrefixOf (normQuery q) = false :=
    isPrefixOf_false_of_head_ne 'u' 'i' "pdate".data "nsert".data _ (by decide) hupd
  simp [execute_query, hsel, hins, hupd, hw, handle_update, hm, hr, hd, hp, hcols]

/-- Witness for the amended C5 theorem: a concrete UPDATE against a
one-row table whose updated column is an integer column — the payload
value sent is the string "5", not an integer. -/
theorem update_values_sent_raw_witness :
    execute_query "update t set x = 5 where id = 1".data
        [⟨"t".data, c5Cols, [[("id".data, Value.vInt 1), ("x".data, Value.vInt 0)]]⟩]
      = (.msg "Row updated for table 't'".data,
         [⟨"t".data, c5Cols, [[("id".data, Value.vInt 1), ("x".data, Value.vStr "5".data)]]⟩],
         [.reflect "t".data,
          .update "t".data [("x".data, Value.vStr "5".data)]
            [⟨"id".data, CmpOp.eq, "1".data⟩]]) := by
  have h := update_values_sent_raw "update t set x = 5 where id = 1".data
      [⟨"t".data, c5Cols, [[("id".data, Value.vInt 1), ("x".data, Value.vInt 0)]]⟩]
      "t".data "x = 5".data
      ⟨"t".data, c5Cols, [[("id".data, Value.vInt 1), ("x".data, Value.vInt 0)]]⟩
      [("x".data, "5".data)] "id = 1".data [⟨"id".data, CmpOp.eq, "1".data⟩]
      (by decide) (by decide) (by decide) (by decide) (by decide) (by decide) (by decide)
  exact h.trans (by decide)

/-! ## Claim C8 -/

def c8Cols : List Col :=
  [⟨"a".data, .integer, false, true⟩, ⟨"b".data, .integer, false, true⟩,
   ⟨"c".data, .integer, false, true⟩]

def c8Db : Db := [⟨"t".data, c8Cols, []⟩]

/-- Claim C8, counterexample: for `INSERT INTO t VALUES (1,2)` against a
three-column table the column-count mismatch is indeed reported as a
single message, but only after two catalog reflections of the table —
not with zero Storage Engine calls as the claim states. -/
theorem mismatch_after_reflection_cx :
    execute_query "INSERT INTO t VALUES (1,2)".data c8Db
      = (.msg "Column count (3) does not match values count (2).".data, c8Db,
         [.reflect "t".data, .reflect "t".data])
    ∧ ([StorageCall.reflect "t".data, .reflect "t".data] ≠ ([] : List StorageCall)) := by
  decide

/-- Claim C8 as amended: statements matching no recognized shape make
zero Storage Engine calls — an unrecognized leading keyword returns the
null result and an INSERT matching neither form returns the format
message, both without touching the engine; the INSERT column-count
mismatch is reported as a single message before any mutating call, but
after the table has been reflected (twice, for the implicit-columns
form), and the store is left unchanged. -/
theorem validation_before_mutation :
    (∀ db : Db, execute_query "SELEC * FROM t".data db = (.nil, db, []))
    ∧ (∀ db : Db, execute_query "insert gibberish".data db
        = (.msg "Invalid INSERT query format.".data, db, []))
    ∧ (∀ (rows : List Row) (rest : Db),
        execute_query "INSERT INTO t VALUES (1,2)".data (⟨"t".data, c8Cols, rows⟩ :: rest)
          = (.msg "Column count (3) does not match values count (2).".data,
             ⟨"t".data, c8Cols, rows⟩ :: rest,
             [.reflect "t".data, .reflect "t".data])) := by
  refine ⟨fun _ => rfl, fun _ => rfl, fun rows rest => ?_⟩
  rw [show execute_query "INSERT INTO t VALUES (1,2)".data (⟨"t".data, c8Cols, rows⟩ :: rest)
      = insertStage2 "t".data (c8Cols.map (fun c => c.name))
          ((splitOnSub ",".data "1,2".data).map (fun v => stripQuotes (pyStrip v)))
          (⟨"t".data, c8Cols, rows⟩ :: rest) [.reflect "t".data] from rfl]
  exact rfl

/-! ## Claim C9 -/

def c9Db : Db := [⟨"t".data, [⟨"id".data, .integer, true, false⟩], []⟩]

/-- The leading whitespace-delimited token of a statement (the claim's
"leading keyword"). -/
def leadingKeyword (l : List Char) : List Char :=
  (pyStrip l).takeWhile (fun c => !isWs c)

/-- Claim C9, counterexample: `SELECTX * FROM t` has leading keyword
"selectx", which is none of the four statement keywords, yet
execute_query does not return the null (UnrecognizedStatement) result:
dispatch is by prefix, so the statement is handled as a SELECT and
returns a row list after querying the Storage Engine. -/
theorem keyword_dispatch_cx :
    leadingKeyword (normQuery "SELECTX * FROM t".data) = "selectx".data
    ∧ ("selectx".data ∉ ["select".data, "insert".data, "update".data, "delete".data])
    ∧ execute_query "SELECTX * FROM t".data c9Db
        = (.rows [], c9Db, [.reflect "t".data, .query "t".data []])
    ∧ (ExecResult.rows ([] : List Row) ≠ ExecResult.nil) := by decide

/-- Claim C9 as amended: classification is by case-insensitive prefix of
the stripped statement, not by its first token; every input whose
normalized text starts with none of `select`, `insert`, `update`,
`delete` falls through all branches and yields the null
(UnrecognizedStatement) result with no Storage Engine call. -/
theorem unrecognized_prefix_returns_none (q : List Char) (db : Db)
    (h1 : "select".data.isPrefixOf (normQuery q) = false)
    (h2 : "insert".data.isPrefixOf (normQuery q) = false)
    (h3 : "update".data.isPrefixOf (normQuery q) = false)
    (h4 : "delete".data.isPrefixOf (normQuery q) = false) :
    execute_query q db = (.nil, db, []) := by
  simp [execute_query, h1, h2, h3, h4]

/-- Witness for the amended C9 theorem at a concrete statement. -/
theorem unrecognized_prefix_returns_none_witness :
    execute_query "DROP TABLE t".data [] = (.nil, [], []) :=
  unrecognized_prefix_returns_none "DROP TABLE t".data []
    (by decide) (by decide) (by decide) (by decide)

/-! ## Claim C3 -/

/-- Claim C3 (confirmed): every DELETE statement without a WHERE clause
— dispatched as DELETE, naming a table that reflects — returns the
missing-where message and performs no mutation at all: the store is
returned unchanged and the only Storage Engine call is the catalog
reflection. -/
theorem delete_without_where_no_mutation (q : List Char) (db : Db) (t : List Char)
    (tbl : TableRec)
    (hdel : "delete".data.isPrefixOf (normQuery q) = true)
    (hw : findWhere (normQuery q) = none)
    (hf : findFromTable (normQuery q) = some t)
    (hr : reflectTable db t = some tbl) :
    execute_query q db = (.msg "Missing where statement!".data, db, [.reflect t]) := by
  have hsel : "select".data.isPrefixOf (normQuery q) = false :=
    isPrefixOf_false_of_head_ne 'd' 's' "elete".data "elect".data _ (by decide) hdel
  have hins : "insert".data.isPrefixOf (normQuery q) = false :=
    isPrefixOf_false_of_head_ne 'd' 'i' "elete".data "nsert".data _ (by decide) hdel
  have hupd : "update".data.isPrefixOf (normQuery q) = false :=
    isPrefixOf_false_of_head_ne 'd' 'u' "elete".data "pdate".data _ (by decide) hdel
  simp [execute_query, hsel, hins, hupd, hdel, hw, handle_delete, hf, hr, condTruthy]

/-- Witness for the C3 theorem: a concrete no-WHERE DELETE against a
one-row table. -/
theorem delete_without_where_no_mutation_witness :
    execute_query "DELETE FROM t".data
        [⟨"t".data, [⟨"id".data, ColType.integer, true, false⟩], [[("id".data, Value.vInt 7)]]⟩]
      = (.msg "Missing where statement!".data,
         [⟨"t".data, [⟨"id".data, ColType.integer, true, false⟩], [[("id".data, Value.vInt 7)]]⟩],
         [.reflect "t".data]) :=
  delete_without_where_no_mutation "DELETE FROM t".data
    [⟨"t".data, [⟨"id".data, ColType.integer, true, false⟩], [[("id".data, Value.vInt 7)]]⟩]
    "t".data
    ⟨"t".data, [⟨"id".data, ColType.integer, true, false⟩], [[("id".data, Value.vInt 7)]]⟩
    (by decide) (by decide) (by decide) (by decide)

/-! ## Claim C10 -/

/-- Segments that all fail the condition pattern are all skipped,
leaving the accumulator untouched and raising nothing. -/
theorem parseCondsGo_all_skip (tbl : TableRec) (segs : List (List Char))
    (h : ∀ seg ∈ segs, matchCond (pyStrip seg) = none) :
    ∀ acc, parseCondsGo tbl segs acc = .ok acc := by
  induction segs with
  | nil => intro acc; rfl
  | cons s rest ih =>
    intro acc
    have hs : matchCond (pyStrip s) = none := h s (by simp)
    simp only [parseCondsGo, hs]
    exact ih (fun seg hseg => h seg (by simp [hseg])) acc

/-- Filtering by the negation of the empty conjunction removes every
row. -/
theorem filter_empty_conjunction (rows : List Row) :
    rows.filter (fun row => !rowMatchesAll row []) = [] := by
  induction rows with
  | nil => rfl
  | cons r rs ih => simp [List.filter, rowMatchesAll, ih]

def c10Cols : List Col := [⟨"x".data, .integer, false, true⟩]

/-- Claim C10 (confirmed): condition segments that do not match the
`<identifier> <op> <value>` pattern are skipped silently, so a WHERE
clause with no parseable segment parses to the empty condition list;
a DELETE with such a WHERE clause then deletes every row of the table,
and an UPDATE with such a WHERE clause applies its assignments to every
row. -/
theorem unparseable_where_mutates_all :
    (∀ (tbl : TableRec) (c : List Char),
        (∀ seg ∈ splitOnSub " and ".data c, matchCond (pyStrip seg) = none) →
        parse_conditions tbl c = .ok [])
    ∧ (∀ (cols : List Col) (rows : List Row),
        execute_query "delete from t where ???".data [⟨"t".data, cols, rows⟩]
          = (.msg "Rows deleted in table t".data, [⟨"t".data, cols, []⟩],
             [.reflect "t".data, .delete "t".data []]))
    ∧ (∀ rows : List Row,
        execute_query "update t set x = 1 where ???".data [⟨"t".data, c10Cols, rows⟩]
          = (.msg "Row updated for table 't'".data,
             [⟨"t".data, c10Cols,
               rows.map (fun row => setRowCol row "x".data (.vStr "1".data))⟩],
             [.reflect "t".data, .update "t".data [("x".data, .vStr "1".data)] []])) := by
  refine ⟨?_, ?_, ?_⟩
  · intro tbl c h
    exact parseCondsGo_all_skip tbl _ h []
  · intro cols rows
    rw [show execute_query "delete from t where ???".data [⟨"t".data, cols, rows⟩]
        = (.msg "Rows deleted in table t".data,
           [⟨"t".data, cols, rows.filter (fun row => !rowMatchesAll row [])⟩],
           [.reflect "t".data, .delete "t".data []]) from rfl,
        filter_empty_conjunction]
  · intro rows
    rfl

/-- Witness for C10's parser clause at a concrete unparseable WHERE
text. -/
theorem unparseable_where_mutates_all_witness :
    parse_conditions ⟨"t".data, [], []⟩ "???".data = .ok [] :=
  unparseable_where_mutates_all.1 ⟨"t".data, [], []⟩ "???".data (by decide)

/-! ## Claim C6 -/

/-- Every branch of `map_column_types` before the final `none` produces
a value, so a descriptor whose lower-casing starts with a text alias
always resolves. -/
theorem map_ne_none_of_text_alias (d : List Char)
    (h : STRING_COL_TYPES.any (fun s => s.isPrefixOf (d.map lowerChar)) = true) :
    map_column_types d ≠ none := by
  simp only [map_column_types]
  repeat' split
  all_goals simp_all

/-- A text alias accepted by `valid_col_type`'s fullmatch also makes
`map_column_types` resolve: the alias is a prefix of the descriptor and
is lower-case invariant. -/
theorem valid_text_resolves (s d : List Char) (hs : s ∈ STRING_COL_TYPES)
    (hlow : s.map lowerChar = s) (hm : fullmatchTypeLen s d = true) :
    map_column_types d ≠ none := by
  have hp : s.isPrefixOf d = true := by
    unfold fullmatchTypeLen at hm
    rw [Bool.and_eq_true] at hm
    exact hm.1
  obtain ⟨t, ht⟩ := (isPrefixOf_iff_append s d).mp hp
  apply map_ne_none_of_text_alias
  rw [List.any_eq_true]
  refine ⟨s, hs, ?_⟩
  rw [← ht, List.map_append, hlow]
  exact isPrefixOf_append_self s (t.map lowerChar)

/-- Claim C6 as amended: `valid_col_type`'s grammar is a strict subset
of `map_column_types`'s, not the same grammar — every descriptor
`valid_col_type` accepts resolves via `map_column_types`, but not
conversely (see the counterexample): `valid_col_type` applies no
lower-casing and requires the `(N)` length suffix on text aliases. -/
theorem valid_type_subset_of_map_type (d : List Char) (h : valid_col_type d = true) :
    map_column_types d ≠ none := by
  unfold valid_col_type at h
  rw [Bool.or_eq_true] at h
  rcases h with h | h
  · rw [List.any_eq_true] at h
    obtain ⟨s, hs, hm⟩ := h
    have hsc : s = "str".data ∨ s = "varchar".data ∨ s = "nvarchar".data ∨ s = "string".data := by
      simpa [STRING_COL_TYPES] using hs
    rcases hsc with rfl | rfl | rfl | rfl <;>
      exact valid_text_resolves _ d (by decide) (by decide) hm
  · rw [List.any_eq_true] at h
    obtain ⟨v, hv, hbeq⟩ := h
    have hd : v = d := by simpa using hbeq
    subst hd
    have hvc : v = "int".data ∨ v = "integer".data ∨ v = "bool".data ∨ v = "boolean".data ∨
        v = "decimal".data ∨ v = "money".data ∨ v = "datetime".data := by
      simpa [VALID_COL_TYPES] using hv
    rcases hvc with rfl | rfl | rfl | rfl | rfl | rfl | rfl <;> decide

/-- Claim C6, counterexample: "string" resolves via `map_column_types`
(to the unbounded text type) yet `valid_col_type` rejects it, so the two
functions do not implement the same grammar — the claimed equivalence
fails; "INT" fails the same way because `valid_col_type` never
lower-cases. -/
theorem valid_type_not_same_grammar_cx :
    valid_col_type "string".data = false
    ∧ map_column_types "string".data = some (ColType.string none)
    ∧ valid_col_type "INT".data = false
    ∧ map_column_types "INT".data = some ColType.integer := by decide

/-- Witness for the amended C6 theorem at a concrete descriptor. -/
theorem valid_type_subset_of_map_type_witness :
    map_column_types "varchar(30)".data ≠ none :=
  valid_type_subset_of_map_type "varchar(30)".data (by decide)

/-! ## Claim C7 -/

/-- The descriptor grammar the specification's words describe (claim
C7), written out for comparison with the code: the non-text aliases
after lower-casing, or a text alias exactly, or a text alias with an
`(N)` length suffix. -/
def specRecognizedType (d : List Char) : Bool :=
  let ct := d.map lowerChar
  VALID_COL_TYPES.any (fun v => ct == v) ||
  STRING_COL_TYPES.any (fun s => ct == s || fullmatchTypeLen s ct)

/-- The descriptor set `map_column_types` actually recognizes (amended
claim C7): the non-text aliases after lower-casing, or any lower-cased
descriptor that merely starts with a text alias. -/
def codeRecognizedType (d : List Char) : Bool :=
  let ct := d.map lowerChar
  VALID_COL_TYPES.any (fun v => ct == v) ||
  STRING_COL_TYPES.any (fun s => s.isPrefixOf ct)

/-- Claim C7, counterexample: "strawberry" matches no alias and no
alias-with-length of the claimed grammar, yet `map_column_types`
resolves it (to the unbounded text type) instead of returning
Unsupported, because the text aliases are tested with `startswith`. -/
theorem map_type_accepts_alias_extensions_cx :
    map_column_types "strawberry".data = some (ColType.string none)
    ∧ specRecognizedType "strawberry".data = false := by decide

/-- Claim C7 as amended: `map_column_types` resolves a descriptor
exactly when its lower-casing is one of the seven non-text aliases or
starts with one of the four text aliases (the length being the first
parenthesised digit run anywhere in the descriptor, unbounded if none);
every other descriptor returns Unsupported. -/
theorem map_type_recognized_characterization (d : List Char) :
    (map_column_types d ≠ none) ↔ codeRecognizedType d = true := by
  simp only [map_column_types, codeRecognizedType, VALID_COL_TYPES, STRING_COL_TYPES,
    List.any_cons, List.any_nil, Bool.or_false, Bool.or_eq_true]
  repeat' split
  all_goals simp_all
  all_goals tauto

end DbEditor
